import Mathlib

/-!
Shallow embedding of the data-preparation and aggregation layer of
`src/Dashboard.py` (an Adidas sales dashboard built on pandas).

The embedding models:
  * the raw spreadsheet file (`RawFile`: a header of column names plus rows),
  * `load_data` (lines 36-46): date coercion with a sentinel for unparseable
    dates (`pd.to_datetime(..., errors='coerce')` gives NaT, modelled as
    `none`), derivation of the `Month_Year` label (`strftime "%b'%y"`; NaT
    propagates to a missing label, modelled as `none`), and the
    `FileNotFoundError` handler that returns an empty DataFrame,
  * the summary scalars (lines 68-71) guarded by column presence (a missing
    column raises `KeyError` in pandas, modelled with `Except`),
  * the group-by aggregation views (lines 114, 125, 136, 164, 174, 189, 279,
    291, 298).  Pandas `groupby(sort=True)` drops rows whose group key is
    missing (NaN/NaT) and sorts the group keys ascending; both behaviours are
    embedded faithfully (`List.filterMap` drops `none` keys;
    `List.insertionSort` orders the distinct keys).
Numeric cells are embedded as `Int` (exact arithmetic).
-/

/-- A calendar date, the embedding of a parsed `InvoiceDate` cell. -/
structure Date where
  year : Nat
  month : Nat
  day : Nat
deriving DecidableEq

/-- Split a character list on the dash character (ISO date separator). -/
def splitDash : List Char → List (List Char)
  | [] => [[]]
  | c :: cs =>
    if c = '-' then [] :: splitDash cs
    else
      match splitDash cs with
      | [] => [[c]]
      | g :: gs => (c :: g) :: gs

/-- The numeric value of a decimal digit character, `none` otherwise. -/
def charDigit (c : Char) : Option Nat :=
  if 48 ≤ c.toNat ∧ c.toNat ≤ 57 then some (c.toNat - 48) else none

/-- Read a nonempty all-digit character list as a natural number. -/
def digitsToNat : List Char → Option Nat
  | [] => none
  | cs => cs.foldl (fun acc c => do
      let a ← acc
      let d ← charDigit c
      pure (a * 10 + d)) (some 0)

/-- Embedding of the per-cell work of `pd.to_datetime(..., errors='coerce')`
(Dashboard.py line 41) on an ISO `YYYY-MM-DD` cell: a cell that does not
parse yields `none` (pandas NaT), never an exception. -/
def parseDate (s : String) : Option Date :=
  match splitDash s.data with
  | [ys, ms, ds] => do
    let y ← digitsToNat ys
    let m ← digitsToNat ms
    let d ← digitsToNat ds
    if 1 ≤ m ∧ m ≤ 12 ∧ 1 ≤ d ∧ d ≤ 31 then pure (Date.mk y m d) else none
  | _ => none

/-- The month abbreviation used by `strftime "%b"`. -/
def monthAbbrev : Nat → String
  | 1 => "Jan" | 2 => "Feb" | 3 => "Mar" | 4 => "Apr"
  | 5 => "May" | 6 => "Jun" | 7 => "Jul" | 8 => "Aug"
  | 9 => "Sep" | 10 => "Oct" | 11 => "Nov" | 12 => "Dec"
  | _ => ""

/-- The decimal digit character for `n % 10`. -/
def digitChar (n : Nat) : Char := Char.ofNat (48 + n % 10)

/-- The zero-padded two-digit year of `strftime "%y"`. -/
def twoDigitYear (y : Nat) : String :=
  String.mk [digitChar (y % 100 / 10), digitChar (y % 10)]

/-- Embedding of `strftime "%b'%y"` (Dashboard.py line 42) on a parsed date. -/
def monthYearLabel (d : Date) : String :=
  monthAbbrev d.month ++ "'" ++ twoDigitYear d.year

/-- One row of the source spreadsheet, before date parsing. -/
structure RawRow where
  Retailer : String
  Region : String
  State : String
  City : String
  Product : String
  InvoiceDate : String
  UnitsSold : Int
  TotalSales : Int
  OperatingProfit : Int
deriving DecidableEq

/-- The source spreadsheet: its header (column names) and its rows.
`columns` records which columns are physically present; accessing an absent
column raises `KeyError` in pandas. -/
structure RawFile where
  columns : List String
  rows : List RawRow
deriving DecidableEq

/-- One row of the loaded table.  `InvoiceDate` is `none` for an unparseable
date (pandas NaT) and `Month_Year` is then `none` as well (NaT propagates
through `strftime` as a missing label). -/
structure Row where
  Retailer : String
  Region : String
  State : String
  City : String
  Product : String
  InvoiceDate : Option Date
  Month_Year : Option String
  UnitsSold : Int
  TotalSales : Int
  OperatingProfit : Int
deriving DecidableEq

/-- The loaded DataFrame: column names plus typed rows. -/
structure DataFrame where
  columns : List String
  rows : List Row
deriving DecidableEq

/-- The exceptions the script can raise, as pandas raises them. -/
inductive PyError where
  | FileNotFoundError : PyError
  | KeyError : String → PyError
deriving DecidableEq

/-- The loaded form of one raw row: the date column coerced
(`errors='coerce'`), the `Month_Year` label derived from it. -/
def toRow (r : RawRow) : Row :=
  { Retailer := r.Retailer, Region := r.Region, State := r.State,
    City := r.City, Product := r.Product,
    InvoiceDate := parseDate r.InvoiceDate,
    Month_Year := (parseDate r.InvoiceDate).map monthYearLabel,
    UnitsSold := r.UnitsSold, TotalSales := r.TotalSales,
    OperatingProfit := r.OperatingProfit }

/-- Embedding of `load_data` (Dashboard.py lines 36-46).  The file system is
`Option RawFile`: `none` means the file does not exist, in which case
`pd.read_excel` raises `FileNotFoundError`, the handler catches it and the
function returns an empty DataFrame.  When the file exists, the assignment
`df['InvoiceDate'] = pd.to_datetime(df['InvoiceDate'], ...)` first reads
`df['InvoiceDate']`, which raises an uncaught `KeyError` when that column is
absent; otherwise every row is kept (coerced) and the `Month_Year` column is
appended. -/
def load_data (fs : Option RawFile) : Except PyError DataFrame :=
  match fs with
  | none => Except.ok (DataFrame.mk [] [])
  | some f =>
    if "InvoiceDate" ∈ f.columns then
      Except.ok
        (DataFrame.mk
          (if "Month_Year" ∈ f.columns then f.columns
           else f.columns ++ ["Month_Year"])
          (f.rows.map toRow))
    else Except.error (PyError.KeyError "InvoiceDate")

/-- `df[c].sum()` for an `Int`-valued column: `KeyError` when the column is
absent, the arithmetic sum of the column otherwise. -/
def sumCol (df : DataFrame) (c : String) (f : Row → Int) : Except PyError Int :=
  if c ∈ df.columns then Except.ok ((df.rows.map f).sum)
  else Except.error (PyError.KeyError c)

/-- `total_units` (Dashboard.py line 68) over the rows of the loaded table. -/
def total_units (t : List Row) : Int := (t.map Row.UnitsSold).sum

/-- `total_sales` (Dashboard.py line 69). -/
def total_sales (t : List Row) : Int := (t.map Row.TotalSales).sum

/-- `total_profit` (Dashboard.py line 70). -/
def total_profit (t : List Row) : Int := (t.map Row.OperatingProfit).sum

/-- `sales_count = df.shape[0]` (Dashboard.py line 71). -/
def sales_count (t : List Row) : Nat := t.length

example : parseDate "2023-01-05" = some (Date.mk 2023 1 5) := by decide
example : parseDate "garbage" = none := by rfl
example : monthYearLabel (Date.mk 2023 1 5) = "Jan'23" := by decide
example : monthYearLabel (Date.mk 2023 2 10) = "Feb'23" := by decide

/-- Strict lexicographic comparison of character lists by code point, the
order Python uses to compare the strings pandas sorts group keys by. -/
def strLtb : List Char → List Char → Bool
  | [], [] => false
  | [], _ :: _ => true
  | _ :: _, [] => false
  | a :: as, b :: bs =>
    if a.toNat < b.toNat then true
    else if a.toNat = b.toNat then strLtb as bs
    else false

/-- Non-strict lexicographic comparison of character lists by code point. -/
def strLeb : List Char → List Char → Bool
  | [], _ => true
  | _ :: _, [] => false
  | a :: as, b :: bs =>
    if a.toNat < b.toNat then true
    else if a.toNat = b.toNat then strLeb as bs
    else false

/-- The lexicographic (alphabetical) string order pandas sorts group labels
by. -/
def strLe (a b : String) : Prop := strLeb a.data b.data = true

/-- The strict form of `strLe`. -/
def strLt (a b : String) : Prop := strLtb a.data b.data = true

instance : DecidableRel strLe := fun a b => by
  unfold strLe; exact inferInstance

instance : DecidableRel strLt := fun a b => by
  unfold strLt; exact inferInstance

theorem strLeb_total (as : List Char) :
    ∀ bs, strLeb as bs = true ∨ strLeb bs as = true := by
  induction as with
  | nil => intro bs; left; rfl
  | cons a as ih =>
    intro bs
    cases bs with
    | nil => right; rfl
    | cons b bs =>
      simp only [strLeb]
      rcases Nat.lt_trichotomy a.toNat b.toNat with h | h | h
      · left; rw [if_pos h]
      · rw [if_neg (by omega), if_pos h, if_neg (by omega), if_pos h.symm]
        exact ih bs
      · right; rw [if_pos h]

theorem strLeb_trans (as : List Char) : ∀ bs cs, strLeb as bs = true →
    strLeb bs cs = true → strLeb as cs = true := by
  induction as with
  | nil => intro bs cs _ _; rfl
  | cons a as ih =>
    intro bs cs h₁ h₂
    cases bs with
    | nil => exact absurd h₁ (by simp [strLeb])
    | cons b bs =>
      cases cs with
      | nil => exact absurd h₂ (by simp [strLeb])
      | cons c cs =>
        simp only [strLeb] at h₁ h₂ ⊢
        split_ifs at h₁ h₂ ⊢ <;>
          first
            | rfl
            | omega
            | exact ih bs cs h₁ h₂

instance : IsTotal String strLe :=
  IsTotal.mk (fun a b => strLeb_total a.data b.data)

instance : IsTrans String strLe :=
  IsTrans.mk (fun a b c h₁ h₂ => strLeb_trans a.data b.data c.data h₁ h₂)

/-- Lexicographic order on the (Region, City) group keys, the order pandas
uses to sort a two-column group index. -/
def pairLe (a b : String × String) : Prop :=
  strLt a.1 b.1 ∨ (a.1 = b.1 ∧ strLe a.2 b.2)

instance : DecidableRel pairLe := fun a b => by
  unfold pairLe; exact inferInstance

/-- Lexicographic order on the (Region, State, Retailer) group keys. -/
def tripleLe (a b : String × String × String) : Prop :=
  strLt a.1 b.1 ∨ (a.1 = b.1 ∧ pairLe a.2 b.2)

instance : DecidableRel tripleLe := fun a b => by
  unfold tripleLe; exact inferInstance

/-- Embedding of `df.groupby(k)[m].sum().reset_index()` with one key column
and one measure column.  Pandas `groupby` with its defaults drops rows whose
group key is missing (NaN/NaT), so the keys are the distinct values of
`t.filterMap key`; `sort=True` sorts the distinct keys ascending by `le`;
each output row pairs a key with the arithmetic sum of the measure over the
input rows carrying that key. -/
def groupbySum {K : Type} (le : K → K → Prop) [DecidableRel le] [DecidableEq K]
    (key : Row → Option K) (meas : Row → Int) (t : List Row) : List (K × Int) :=
  (List.insertionSort le (t.filterMap key).dedup).map
    (fun k => (k, ((t.filter (fun r => decide (key r = some k))).map meas).sum))

/-- `groupbySum` with two summed measure columns. -/
def groupbySum2 {K : Type} (le : K → K → Prop) [DecidableRel le] [DecidableEq K]
    (key : Row → Option K) (m₁ m₂ : Row → Int) (t : List Row) :
    List (K × Int × Int) :=
  (List.insertionSort le (t.filterMap key).dedup).map
    (fun k => (k, ((t.filter (fun r => decide (key r = some k))).map m₁).sum,
                  ((t.filter (fun r => decide (key r = some k))).map m₂).sum))

/-- `groupbySum` with three summed measure columns. -/
def groupbySum3 {K : Type} (le : K → K → Prop) [DecidableRel le] [DecidableEq K]
    (key : Row → Option K) (m₁ m₂ m₃ : Row → Int) (t : List Row) :
    List (K × Int × Int × Int) :=
  (List.insertionSort le (t.filterMap key).dedup).map
    (fun k => (k, ((t.filter (fun r => decide (key r = some k))).map m₁).sum,
                  ((t.filter (fun r => decide (key r = some k))).map m₂).sum,
                  ((t.filter (fun r => decide (key r = some k))).map m₃).sum))

/-- `df.groupby("Retailer")["TotalSales"].sum().reset_index()`
(Dashboard.py line 114). -/
def retailer_sales (t : List Row) : List (String × Int) :=
  groupbySum strLe (fun r => some r.Retailer) Row.TotalSales t

/-- `df.groupby("Month_Year")["TotalSales"].sum().reset_index()`
(Dashboard.py line 125).  The key is the `Month_Year` label, which is missing
(`none`) on rows whose invoice date failed to parse. -/
def time_series (t : List Row) : List (String × Int) :=
  groupbySum strLe Row.Month_Year Row.TotalSales t

/-- `df.groupby("State")[["TotalSales", "UnitsSold"]].sum().reset_index()`
(Dashboard.py line 136). -/
def state_data (t : List Row) : List (String × Int × Int) :=
  groupbySum2 strLe (fun r => some r.State)
    Row.TotalSales Row.UnitsSold t

/-- `df.groupby(["Region", "City"])["TotalSales"].sum().reset_index()`
(Dashboard.py line 164). -/
def geo_data (t : List Row) : List ((String × String) × Int) :=
  groupbySum pairLe (fun r => some (r.Region, r.City)) Row.TotalSales t

/-- `df.groupby("Region")["TotalSales"].sum().reset_index()`
(Dashboard.py line 174). -/
def region_sales (t : List Row) : List (String × Int) :=
  groupbySum strLe (fun r => some r.Region) Row.TotalSales t

/-- `df.groupby("Product")[["TotalSales", "UnitsSold", "OperatingProfit"]]
.sum().reset_index()` (Dashboard.py line 189). -/
def product_sales (t : List Row) : List (String × Int × Int × Int) :=
  groupbySum3 strLe (fun r => some r.Product)
    Row.TotalSales Row.UnitsSold Row.OperatingProfit t

/-- `df.groupby(["Region", "State", "Retailer"])["OperatingProfit"].sum()
.reset_index()` (Dashboard.py line 279). -/
def sunburst_data (t : List Row) : List ((String × String × String) × Int) :=
  groupbySum tripleLe (fun r => some (r.Region, r.State, r.Retailer))
    Row.OperatingProfit t

/-- The comparison used by `.sort_values("OperatingProfit")`: ascending by
the summed profit. -/
def byProfit (a b : String × Int) : Prop := a.2 ≤ b.2

instance : DecidableRel byProfit := fun a b => by
  unfold byProfit; exact inferInstance

instance : IsTotal (String × Int) byProfit :=
  IsTotal.mk (fun a b => le_total a.2 b.2)

instance : IsTrans (String × Int) byProfit :=
  IsTrans.mk (fun _ _ _ h₁ h₂ => le_trans h₁ h₂)

/-- `df.groupby("Region")["OperatingProfit"].sum().reset_index()
.sort_values("OperatingProfit")` (Dashboard.py line 291). -/
def funnel_data (t : List Row) : List (String × Int) :=
  List.insertionSort byProfit
    (groupbySum strLe (fun r => some r.Region)
      Row.OperatingProfit t)

/-- `df.groupby(["Month_Year", "Region"])["OperatingProfit"].sum()
.reset_index()` (Dashboard.py line 298).  A row whose `Month_Year` label is
missing has a missing key pair, so pandas drops it from the grouping. -/
def line_data (t : List Row) : List ((String × String) × Int) :=
  groupbySum pairLe (fun r => r.Month_Year.map (fun m => (m, r.Region)))
    Row.OperatingProfit t

/-- `costs = total_sales - total_profit` (Dashboard.py line 259). -/
def costs (t : List Row) : Int := total_sales t - total_profit t

/-- The `Amount` column of the waterfall frame (Dashboard.py lines 260-263):
`[total_sales, -costs, total_profit]` labelled Revenue / Costs / Profit. -/
def waterfall_data (t : List Row) : List (String × Int) :=
  [("Revenue", total_sales t), ("Costs", -costs t), ("Profit", total_profit t)]

/-- The retailer table rebuilt inline for the "Download Retailer Data" button:
`df.groupby("Retailer")["TotalSales"].sum().reset_index()`
(Dashboard.py line 233). -/
def download_retailer_data (t : List Row) : List (String × Int) :=
  groupbySum strLe (fun r => some r.Retailer) Row.TotalSales t

/-- The derived tables of every aggregation view, bundled. -/
structure Views where
  retailer : List (String × Int)
  timeSeries : List (String × Int)
  stateData : List (String × Int × Int)
  geo : List ((String × String) × Int)
  region : List (String × Int)
  product : List (String × Int × Int × Int)
  sunburst : List ((String × String × String) × Int)
  funnel : List (String × Int)
  lineData : List ((String × String) × Int)
deriving DecidableEq

/-- All aggregation views computed from the loaded rows. -/
def all_views (t : List Row) : Views :=
  Views.mk (retailer_sales t) (time_series t) (state_data t) (geo_data t)
    (region_sales t) (product_sales t) (sunburst_data t) (funnel_data t)
    (line_data t)

/-- The script's view statements in state-passing form: every statement of
Dashboard.py lines 114-298 only reads `df` (`groupby`, `sum`, `reset_index`
and `sort_values` each return a new frame), so the table is threaded through
unchanged. -/
def all_views_st (t : List Row) : Views × List Row := (all_views t, t)

/-- The script from load to the summary metrics and views, in execution
order (Dashboard.py lines 48-71 then the tabs): load; `st.stop()` when the
frame is empty (modelled as `none`); then the summary scalars, whose column
accesses can raise `KeyError`; then the aggregation views. -/
def run_dashboard (fs : Option RawFile) :
    Except PyError (Option ((Int × Int × Int × Nat) × Views)) := do
  let df ← load_data fs
  if df.rows.isEmpty then return none
  let tu ← sumCol df "UnitsSold" Row.UnitsSold
  let ts ← sumCol df "TotalSales" Row.TotalSales
  let tp ← sumCol df "OperatingProfit" Row.OperatingProfit
  return some ((tu, ts, tp, df.rows.length), all_views df.rows)

/-- First-occurrence deduplication, with an accumulator of keys already
seen.  Used to state the first-occurrence ordering the spec asks of the
time-series view. -/
def dedupFirstAux {K : Type} [DecidableEq K] (seen : List K) : List K → List K
  | [] => []
  | a :: as =>
    if a ∈ seen then dedupFirstAux seen as
    else a :: dedupFirstAux (a :: seen) as

/-- The distinct elements of a list in order of first occurrence. -/
def dedupFirst {K : Type} [DecidableEq K] (l : List K) : List K :=
  dedupFirstAux [] l

/-- The number of distinct values of a (total) group-key function over the
input rows. -/
def distinctKeys {K : Type} [DecidableEq K] (key : Row → K) (t : List Row) :
    Nat :=
  ((t.map key).dedup).length

instance {ε α : Type} [DecidableEq ε] [DecidableEq α] :
    DecidableEq (Except ε α) := fun a b =>
  match a, b with
  | Except.ok x, Except.ok y =>
    if h : x = y then isTrue (by rw [h])
    else isFalse (fun hc => h (Except.ok.inj hc))
  | Except.error x, Except.error y =>
    if h : x = y then isTrue (by rw [h])
    else isFalse (fun hc => h (Except.error.inj hc))
  | Except.ok _, Except.error _ => isFalse (fun hc => Except.noConfusion hc)
  | Except.error _, Except.ok _ => isFalse (fun hc => Except.noConfusion hc)

/-- The full column schema of the source spreadsheet (spec section 3). -/
def allCols : List String :=
  ["Retailer", "Region", "State", "City", "Product", "InvoiceDate",
   "UnitsSold", "TotalSales", "OperatingProfit"]

/-- A January 2023 transaction with a well-formed date. -/
def rawJan : RawRow :=
  RawRow.mk "RetailerA" "East" "New York" "NYC" "Shoes" "2023-01-05" 10 100 20

/-- A February 2023 transaction with a well-formed date. -/
def rawFeb : RawRow :=
  RawRow.mk "RetailerA" "East" "New York" "NYC" "Shoes" "2023-02-10" 5 50 10

/-- A transaction whose invoice-date cell does not parse. -/
def rawBad : RawRow :=
  RawRow.mk "RetailerB" "West" "California" "LA" "Shoes" "not a date" 20 200 40

/-- A well-formed file holding exactly the unparseable-date transaction. -/
def fileBad : RawFile := RawFile.mk allCols [rawBad]

/-- The loaded rows of `fileBad`. -/
def tBad : List Row := [toRow rawBad]

/-- A well-formed file with a January and a February transaction. -/
def fileJanFeb : RawFile := RawFile.mk allCols [rawJan, rawFeb]

/-- The loaded rows of `fileJanFeb`. -/
def tJanFeb : List Row := [toRow rawJan, toRow rawFeb]

/-- A file that exists but lacks the `UnitsSold` column. -/
def fileNoUnits : RawFile :=
  RawFile.mk ["Retailer", "Region", "State", "City", "Product", "InvoiceDate",
    "TotalSales", "OperatingProfit"] [rawJan]

/-- A file that exists but lacks the `InvoiceDate` column. -/
def fileNoInvoice : RawFile :=
  RawFile.mk ["Retailer", "Region", "State", "City", "Product", "UnitsSold",
    "TotalSales", "OperatingProfit"] [rawJan]

/-- A row carrying only a region and an operating profit, for the funnel
example of spec section 8. -/
def funnelRow (region : String) (profit : Int) : Row :=
  Row.mk "A" region "S" "C" "P" none none 0 0 profit

/-- The funnel example input `[(East, 10), (West, 30), (East, 5)]`. -/
def tFunnel : List Row :=
  [funnelRow "East" 10, funnelRow "West" 30, funnelRow "East" 5]

theorem isSome_map {α β : Type} (f : α → β) (o : Option α) :
    (o.map f).isSome = o.isSome := by
  cases o <;> rfl

theorem sum_map_zero {α : Type} (l : List α) :
    (l.map (fun _ => (0 : Int))).sum = 0 := by
  induction l with
  | nil => rfl
  | cons a as ih => simp [ih]

theorem sum_map_add {α : Type} (l : List α) (f g : α → Int) :
    (l.map (fun x => f x + g x)).sum = (l.map f).sum + (l.map g).sum := by
  induction l with
  | nil => rfl
  | cons a as ih => simp only [List.map_cons, List.sum_cons, ih]; ring

theorem sum_indicator {K : Type} [DecidableEq K] (k₀ : K) (c : Int) :
    ∀ ks : List K, ks.Nodup →
      (ks.map (fun k => if k₀ = k then c else 0)).sum
        = if k₀ ∈ ks then c else 0 := by
  intro ks
  induction ks with
  | nil => intro _; simp
  | cons a as ih =>
    intro hnd
    rcases List.nodup_cons.mp hnd with ⟨ha, hnd'⟩
    simp only [List.map_cons, List.sum_cons, List.mem_cons, ih hnd']
    by_cases h : k₀ = a
    · subst h
      have hne : k₀ ∉ as := ha
      simp [hne]
    · simp [h]

/-- Summing a measure group-by-group over a duplicate-free key list equals
summing it over the rows whose key lies in that list: grouping partitions
the keyed rows. -/
theorem sum_over_groups {K : Type} [DecidableEq K] (key : Row → Option K)
    (meas : Row → Int) (ks : List K) (hnd : ks.Nodup) :
    ∀ t : List Row,
      (ks.map
        (fun k => ((t.filter (fun r => decide (key r = some k))).map meas).sum)).sum
        = ((t.filter
            (fun r => (key r).elim false (fun k => decide (k ∈ ks)))).map meas).sum := by
  intro t
  induction t with
  | nil => simp [sum_map_zero]
  | cons r t ih =>
    cases hk : key r with
    | none =>
      simp only [List.filter_cons, hk]
      simpa using ih
    | some k₀ =>
      simp only [List.filter_cons, hk]
      by_cases hmem : k₀ ∈ ks
      · have hstep :
            (ks.map (fun k =>
              ((if (decide (some k₀ = some k)) = true
                then r :: t.filter (fun x => decide (key x = some k))
                else t.filter (fun x => decide (key x = some k))).map meas).sum))
            = ks.map (fun k => (if k₀ = k then meas r else 0)
                + ((t.filter (fun x => decide (key x = some k))).map meas).sum) := by
          apply List.map_congr_left
          intro k _
          by_cases hkk : k₀ = k
          · simp [hkk]
          · simp [hkk]
        rw [hstep, sum_map_add, sum_indicator k₀ (meas r) ks hnd, if_pos hmem, ih]
        simp [Option.elim, hmem]
      · have hstep :
            (ks.map (fun k =>
              ((if (decide (some k₀ = some k)) = true
                then r :: t.filter (fun x => decide (key x = some k))
                else t.filter (fun x => decide (key x = some k))).map meas).sum))
            = ks.map (fun k =>
                ((t.filter (fun x => decide (key x = some k))).map meas).sum) := by
          apply List.map_congr_left
          intro k hkmem
          have hkk : k₀ ≠ k := fun h => hmem (h ▸ hkmem)
          simp [hkk]
        rw [hstep, ih]
        simp [Option.elim, hmem]

/-- The key list of `groupbySum` is duplicate-free and holds exactly the
keys present in the input. -/
theorem groupbySum_keys {K : Type} (le : K → K → Prop) [DecidableRel le]
    [DecidableEq K] (key : Row → Option K) (t : List Row) :
    (List.insertionSort le (t.filterMap key).dedup).Nodup
      ∧ ∀ k, k ∈ List.insertionSort le (t.filterMap key).dedup ↔
          ∃ r ∈ t, key r = some k := by
  constructor
  · exact ((List.perm_insertionSort le _).nodup_iff).mpr
      (List.nodup_dedup _)
  · intro k
    rw [(List.perm_insertionSort le _).mem_iff, List.mem_dedup,
      List.mem_filterMap]

/-- The engine behind conservation of totals: summing a measure over the
sorted distinct keys of the input equals summing it over the rows whose
group key is present (pandas drops missing keys). -/
theorem keyed_sum_conserved {K : Type} (le : K → K → Prop) [DecidableRel le]
    [DecidableEq K] (key : Row → Option K) (meas : Row → Int) (t : List Row) :
    ((List.insertionSort le (t.filterMap key).dedup).map
      (fun k => ((t.filter (fun r => decide (key r = some k))).map meas).sum)).sum
      = ((t.filter (fun r => (key r).isSome)).map meas).sum := by
  rcases groupbySum_keys le key t with ⟨hnd, hmem⟩
  rw [sum_over_groups key meas _ hnd t]
  congr 1
  apply congrArg
  apply List.filter_congr
  intro r hr
  cases hk : key r with
  | none => simp [Option.elim]
  | some k₀ =>
    simp only [Option.elim, Option.isSome]
    have : k₀ ∈ List.insertionSort le (t.filterMap key).dedup :=
      (hmem k₀).mpr ⟨r, hr, hk⟩
    simp [this]

/-- Conservation of totals for a single-measure group-by. -/
theorem groupbySum_conserves {K : Type} (le : K → K → Prop) [DecidableRel le]
    [DecidableEq K] (key : Row → Option K) (meas : Row → Int) (t : List Row) :
    ((groupbySum le key meas t).map Prod.snd).sum
      = ((t.filter (fun r => (key r).isSome)).map meas).sum := by
  unfold groupbySum
  rw [List.map_map]
  exact keyed_sum_conserved le key meas t

/-- Conservation of the first measure of a two-measure group-by. -/
theorem groupbySum2_conserves_fst {K : Type} (le : K → K → Prop)
    [DecidableRel le] [DecidableEq K] (key : Row → Option K)
    (m₁ m₂ : Row → Int) (t : List Row) :
    ((groupbySum2 le key m₁ m₂ t).map (fun x => x.2.1)).sum
      = ((t.filter (fun r => (key r).isSome)).map m₁).sum := by
  unfold groupbySum2
  rw [List.map_map]
  exact keyed_sum_conserved le key m₁ t

/-- Conservation of the second measure of a two-measure group-by. -/
theorem groupbySum2_conserves_snd {K : Type} (le : K → K → Prop)
    [DecidableRel le] [DecidableEq K] (key : Row → Option K)
    (m₁ m₂ : Row → Int) (t : List Row) :
    ((groupbySum2 le key m₁ m₂ t).map (fun x => x.2.2)).sum
      = ((t.filter (fun r => (key r).isSome)).map m₂).sum := by
  unfold groupbySum2
  rw [List.map_map]
  exact keyed_sum_conserved le key m₂ t

/-- Conservation of the first measure of a three-measure group-by. -/
theorem groupbySum3_conserves₁ {K : Type} (le : K → K → Prop)
    [DecidableRel le] [DecidableEq K] (key : Row → Option K)
    (m₁ m₂ m₃ : Row → Int) (t : List Row) :
    ((groupbySum3 le key m₁ m₂ m₃ t).map (fun x => x.2.1)).sum
      = ((t.filter (fun r => (key r).isSome)).map m₁).sum := by
  unfold groupbySum3
  rw [List.map_map]
  exact keyed_sum_conserved le key m₁ t

/-- Conservation of the second measure of a three-measure group-by. -/
theorem groupbySum3_conserves₂ {K : Type} (le : K → K → Prop)
    [DecidableRel le] [DecidableEq K] (key : Row → Option K)
    (m₁ m₂ m₃ : Row → Int) (t : List Row) :
    ((groupbySum3 le key m₁ m₂ m₃ t).map (fun x => x.2.2.1)).sum
      = ((t.filter (fun r => (key r).isSome)).map m₂).sum := by
  unfold groupbySum3
  rw [List.map_map]
  exact keyed_sum_conserved le key m₂ t

/-- Conservation of the third measure of a three-measure group-by. -/
theorem groupbySum3_conserves₃ {K : Type} (le : K → K → Prop)
    [DecidableRel le] [DecidableEq K] (key : Row → Option K)
    (m₁ m₂ m₃ : Row → Int) (t : List Row) :
    ((groupbySum3 le key m₁ m₂ m₃ t).map (fun x => x.2.2.2)).sum
      = ((t.filter (fun r => (key r).isSome)).map m₃).sum := by
  unfold groupbySum3
  rw [List.map_map]
  exact keyed_sum_conserved le key m₃ t

/-- A total group key keeps every row: filtering on key presence is the
identity. -/
theorem filter_isSome_total {K : Type} (f : Row → K) (t : List Row) :
    t.filter (fun r => (some (f r)).isSome) = t := by
  simp

/-- `filterMap` of a total key function is `map`. -/
theorem filterMap_some_eq_map {K : Type} (f : Row → K) (t : List Row) :
    t.filterMap (fun r => some (f r)) = t.map f := by
  induction t with
  | nil => rfl
  | cons r t ih => simp [List.filterMap_cons, ih]

/-- The result row count of a single-measure group-by is the number of
distinct present keys. -/
theorem groupbySum_length {K : Type} (le : K → K → Prop) [DecidableRel le]
    [DecidableEq K] (key : Row → Option K) (meas : Row → Int) (t : List Row) :
    (groupbySum le key meas t).length = (t.filterMap key).dedup.length := by
  unfold groupbySum
  rw [List.length_map, (List.perm_insertionSort le _).length_eq]

/-- The result row count of a two-measure group-by. -/
theorem groupbySum2_length {K : Type} (le : K → K → Prop) [DecidableRel le]
    [DecidableEq K] (key : Row → Option K) (m₁ m₂ : Row → Int) (t : List Row) :
    (groupbySum2 le key m₁ m₂ t).length = (t.filterMap key).dedup.length := by
  unfold groupbySum2
  rw [List.length_map, (List.perm_insertionSort le _).length_eq]

/-- The result row count of a three-measure group-by. -/
theorem groupbySum3_length {K : Type} (le : K → K → Prop) [DecidableRel le]
    [DecidableEq K] (key : Row → Option K) (m₁ m₂ m₃ : Row → Int)
    (t : List Row) :
    (groupbySum3 le key m₁ m₂ m₃ t).length
      = (t.filterMap key).dedup.length := by
  unfold groupbySum3
  rw [List.length_map, (List.perm_insertionSort le _).length_eq]


example :
    ((retailer_sales [toRow (RawRow.mk "A" "E" "S" "C" "P" "x" 1 7 2),
        toRow (RawRow.mk "B" "E" "S" "C" "P" "x" 1 5 2)]).map Prod.snd).sum
      = 12 := by decide

/-- C1 counterexample: on the loaded table of a file whose single row has an
unparseable invoice date (and 200 in total sales), the group-by-period-label
view drops the row (pandas drops missing group keys), so the sum of total
sales over the aggregation result is 0 while the sum over the input table is
200 — totals are not conserved by the group-by-period-label view. -/
theorem time_series_drops_sentinel_total :
    load_data (some fileBad)
      = Except.ok (DataFrame.mk (allCols ++ ["Month_Year"]) tBad)
    ∧ (toRow rawBad).Month_Year = none
    ∧ ((time_series tBad).map Prod.snd).sum = 0
    ∧ total_sales tBad = 200
    ∧ ((time_series tBad).map Prod.snd).sum ≠ total_sales tBad := by
  refine ⟨by decide, by decide, by decide, by decide, by decide⟩

/-- C1 (amended): totals are conserved by every aggregation view whose group
keys are total (retailer, region, state, city, product): the sum of each
summed measure over the aggregation result equals the sum of that measure
over the whole input table.  For the two views keyed on the period label
(`time_series` and `line_data`), pandas drops the rows whose label is the
missing-value sentinel, so the sums equal the totals over the rows whose
invoice date parsed. -/
theorem agg_totals_conserved (t : List Row) :
    ((retailer_sales t).map Prod.snd).sum = total_sales t
  ∧ ((region_sales t).map Prod.snd).sum = total_sales t
  ∧ ((geo_data t).map Prod.snd).sum = total_sales t
  ∧ ((sunburst_data t).map Prod.snd).sum = total_profit t
  ∧ ((funnel_data t).map Prod.snd).sum = total_profit t
  ∧ ((state_data t).map (fun x => x.2.1)).sum = total_sales t
  ∧ ((state_data t).map (fun x => x.2.2)).sum = total_units t
  ∧ ((product_sales t).map (fun x => x.2.1)).sum = total_sales t
  ∧ ((product_sales t).map (fun x => x.2.2.1)).sum = total_units t
  ∧ ((product_sales t).map (fun x => x.2.2.2)).sum = total_profit t
  ∧ ((time_series t).map Prod.snd).sum
      = total_sales (t.filter (fun r => r.Month_Year.isSome))
  ∧ ((line_data t).map Prod.snd).sum
      = total_profit (t.filter (fun r => r.Month_Year.isSome)) := by
  refine ⟨?_, ?_, ?_, ?_, ?_, ?_, ?_, ?_, ?_, ?_, ?_, ?_⟩
  · simp [retailer_sales, groupbySum_conserves, total_sales]
  · simp [region_sales, groupbySum_conserves, total_sales]
  · simp [geo_data, groupbySum_conserves, total_sales]
  · simp [sunburst_data, groupbySum_conserves, total_profit]
  · have hp := List.perm_insertionSort byProfit
      (groupbySum strLe (fun r => some r.Region) Row.OperatingProfit t)
    have hsum := (hp.map Prod.snd).sum_eq
    unfold funnel_data
    rw [hsum]
    simp [groupbySum_conserves, total_profit]
  · simp [state_data, groupbySum2_conserves_fst, total_sales]
  · simp [state_data, groupbySum2_conserves_snd, total_units]
  · simp [product_sales, groupbySum3_conserves₁, total_sales]
  · simp [product_sales, groupbySum3_conserves₂, total_units]
  · simp [product_sales, groupbySum3_conserves₃, total_profit]
  · simp [time_series, groupbySum_conserves, total_sales]
  · simp [line_data, groupbySum_conserves, total_profit, isSome_map]

/-- C6 counterexample: when the source file does not exist, `load_data` does
not return a distinguished error value — the `FileNotFoundError` handler
returns an ordinary empty DataFrame (`Except.ok`, not `Except.error`). -/
theorem load_missing_file_returns_ok_empty :
    load_data none = Except.ok (DataFrame.mk [] []) := by
  rfl

/-- C6 (amended): when the source path does not exist, `load_data` catches
the error and returns an empty table (not a `NotFound` error value); the
script then halts on the empty table (`st.stop()`, modelled as the `none`
outcome), so no summary metric and no aggregation view is computed. -/
theorem missing_file_halts_pipeline :
    run_dashboard none = Except.ok none := by
  rfl

/-- C7: the profit funnel groups the rows by region (it is a permutation of
the region-profit group-by), its rows are sorted ascending by the summed
profit, and on the input `[(East, 10), (West, 30), (East, 5)]` it returns
`[(East, 15), (West, 30)]` in that order. -/
theorem funnel_grouped_sorted_ascending (t : List Row) :
    List.Pairwise byProfit (funnel_data t)
    ∧ List.Perm (funnel_data t)
        (groupbySum strLe (fun r => some r.Region) Row.OperatingProfit t)
    ∧ funnel_data tFunnel = [("East", 15), ("West", 30)] := by
  refine ⟨?_, ?_, by decide⟩
  · exact List.sorted_insertionSort byProfit _
  · exact List.perm_insertionSort byProfit _

/-- C8: every aggregation view is a deterministic function of the input
table alone (equal tables give equal results for all nine views), and the
state-passing form of the view section — faithful to the source, where every
view statement only reads `df` (`groupby`, `sum`, `reset_index` and
`sort_values` all return new frames) — returns the input table unchanged. -/
theorem views_deterministic_and_pure (t₁ t₂ : List Row) (h : t₁ = t₂) :
    all_views t₁ = all_views t₂ ∧ (all_views_st t₁).2 = t₁ := by
  exact ⟨by rw [h], rfl⟩

theorem views_deterministic_and_pure_witness :
    all_views tJanFeb = all_views tJanFeb
    ∧ (all_views_st tJanFeb).2 = tJanFeb :=
  views_deterministic_and_pure tJanFeb tJanFeb rfl

/-- C9: the retailer table of the Sales Overview chart (line 114) and the
retailer table rebuilt inline for the "Download Retailer Data" export
(line 233) are computed by the same group-by pipeline and are element-wise
equal on every table. -/
theorem retailer_export_equivalence (t : List Row) :
    download_retailer_data t = retailer_sales t := by
  rfl

/-- C10: the waterfall amounts are `[total_sales, -costs, total_profit]`
with `costs = total_sales - total_profit`, so the first amount plus the
second equals the third exactly: Revenue + Costs-entry = Profit. -/
theorem waterfall_identity (t : List Row) :
    (waterfall_data t).map Prod.snd
      = [total_sales t, -costs t, total_profit t]
    ∧ total_sales t + (-costs t) = total_profit t := by
  constructor
  · rfl
  · unfold costs; ring

/-- C4 counterexample: on the loaded table of a file whose single row has an
unparseable invoice date, the period-label view has 0 rows, while the number
of distinct key combinations present in the input — counting the sentinel
label — is 1: the sentinel combination yields no output row. -/
theorem time_series_sentinel_group_absent :
    load_data (some fileBad)
      = Except.ok (DataFrame.mk (allCols ++ ["Month_Year"]) tBad)
    ∧ (time_series tBad).length = 0
    ∧ distinctKeys Row.Month_Year tBad = 1
    ∧ (time_series tBad).length ≠ distinctKeys Row.Month_Year tBad := by
  refine ⟨by decide, by decide, by decide, by decide⟩

/-- C4 (amended): for the views keyed on total columns the result row count
equals the number of distinct group-key combinations present in the input;
for the two views keyed on the period label it equals the number of distinct
non-sentinel key combinations (rows whose label is the missing-value
sentinel form no group). -/
theorem agg_row_counts (t : List Row) :
    (retailer_sales t).length = distinctKeys (fun r => r.Retailer) t
  ∧ (region_sales t).length = distinctKeys (fun r => r.Region) t
  ∧ (state_data t).length = distinctKeys (fun r => r.State) t
  ∧ (geo_data t).length = distinctKeys (fun r => (r.Region, r.City)) t
  ∧ (product_sales t).length = distinctKeys (fun r => r.Product) t
  ∧ (sunburst_data t).length
      = distinctKeys (fun r => (r.Region, r.State, r.Retailer)) t
  ∧ (funnel_data t).length = distinctKeys (fun r => r.Region) t
  ∧ (time_series t).length = ((t.filterMap Row.Month_Year).dedup).length
  ∧ (line_data t).length
      = ((t.filterMap
          (fun r => r.Month_Year.map (fun m => (m, r.Region)))).dedup).length := by
  refine ⟨?_, ?_, ?_, ?_, ?_, ?_, ?_, ?_, ?_⟩
  · simp [retailer_sales, groupbySum_length, filterMap_some_eq_map, distinctKeys]
  · simp [region_sales, groupbySum_length, filterMap_some_eq_map, distinctKeys]
  · simp [state_data, groupbySum2_length, filterMap_some_eq_map, distinctKeys]
  · simp [geo_data, groupbySum_length, filterMap_some_eq_map, distinctKeys]
  · simp [product_sales, groupbySum3_length, filterMap_some_eq_map, distinctKeys]
  · simp [sunburst_data, groupbySum_length, filterMap_some_eq_map, distinctKeys]
  · have hp := (List.perm_insertionSort byProfit
      (groupbySum strLe (fun r => some r.Region) Row.OperatingProfit t)).length_eq
    unfold funnel_data
    rw [hp]
    simp [groupbySum_length, filterMap_some_eq_map, distinctKeys]
  · simp [time_series, groupbySum_length]
  · simp [line_data, groupbySum_length]

/-- C5 counterexample: on the loaded table of a file with a January 2023 row
(sales 100) and then a February 2023 row (sales 50), the time-series view
returns the February label first — pandas sorts the labels alphabetically
("Feb'23" < "Jan'23" as text) — while the first-occurrence / calendar order
is January first.  The rows are not ordered by first-occurrence / calendar
order. -/
theorem time_series_alphabetical_not_first_occurrence :
    load_data (some fileJanFeb)
      = Except.ok (DataFrame.mk (allCols ++ ["Month_Year"]) tJanFeb)
    ∧ (toRow rawJan).Month_Year = some "Jan'23"
    ∧ (toRow rawFeb).Month_Year = some "Feb'23"
    ∧ (time_series tJanFeb).map Prod.fst = ["Feb'23", "Jan'23"]
    ∧ dedupFirst (tJanFeb.filterMap Row.Month_Year) = ["Jan'23", "Feb'23"]
    ∧ (time_series tJanFeb).map Prod.fst
        ≠ dedupFirst (tJanFeb.filterMap Row.Month_Year) := by
  refine ⟨by decide, by decide, by decide, by decide, by decide, by decide⟩

/-- C5 (amended): the rows of the sales-by-time aggregation are sorted
lexicographically ascending by the period-label text (pandas `groupby`
defaults to `sort=True` on the key), not in first-occurrence or calendar
order. -/
theorem time_series_sorted_lexicographically (t : List Row) :
    (time_series t).Pairwise (fun a b => strLe a.1 b.1) := by
  unfold time_series groupbySum
  exact List.pairwise_map.mpr (List.sorted_insertionSort strLe _)

/-- C2 counterexample: on a file that exists but lacks the `UnitsSold`
column, `load_data` succeeds (it only touches `InvoiceDate`) — no
`SchemaError`-like error value is produced — and the script then raises an
uncaught `KeyError` (a crash) when the summary metrics read the missing
column. -/
theorem missing_units_column_keyerror :
    load_data (some fileNoUnits)
      = Except.ok (DataFrame.mk (fileNoUnits.columns ++ ["Month_Year"])
          (fileNoUnits.rows.map toRow))
    ∧ run_dashboard (some fileNoUnits)
        = Except.error (PyError.KeyError "UnitsSold") := by
  refine ⟨by decide, by decide⟩

/-- C2 (amended): a missing required column is never signalled by a
dedicated error value.  When a column other than `InvoiceDate` (for example
`UnitsSold`) is absent, `load_data` itself succeeds and the script crashes
later with an uncaught `KeyError` at the summary metrics; when `InvoiceDate`
is absent, `load_data` itself raises the uncaught `KeyError`. -/
theorem missing_column_raises_keyerror :
    (∀ f : RawFile, "InvoiceDate" ∈ f.columns → "UnitsSold" ∉ f.columns →
      f.rows ≠ [] →
      run_dashboard (some f) = Except.error (PyError.KeyError "UnitsSold"))
    ∧ (∀ f : RawFile, "InvoiceDate" ∉ f.columns →
      load_data (some f) = Except.error (PyError.KeyError "InvoiceDate")) := by
  constructor
  · intro f h1 h2 h3
    have hcols : "UnitsSold" ∉
        (if "Month_Year" ∈ f.columns then f.columns
         else f.columns ++ ["Month_Year"]) := by
      by_cases hm : "Month_Year" ∈ f.columns
      · rw [if_pos hm]; exact h2
      · rw [if_neg hm]
        intro hmem
        rcases List.mem_append.mp hmem with h | h
        · exact h2 h
        · simp at h
    obtain ⟨r, rs, hrr⟩ : ∃ r rs, f.rows = r :: rs := by
      cases hfr : f.rows with
      | nil => exact absurd hfr h3
      | cons r rs => exact ⟨r, rs, rfl⟩
    simp [run_dashboard, load_data, h1, hrr, sumCol, hcols, Bind.bind,
      Except.bind, Pure.pure, Except.pure]
  · intro f h
    simp [load_data, h]

theorem missing_column_raises_keyerror_witness :
    ("InvoiceDate" ∈ fileNoUnits.columns
      ∧ "UnitsSold" ∉ fileNoUnits.columns
      ∧ fileNoUnits.rows ≠ []
      ∧ run_dashboard (some fileNoUnits)
          = Except.error (PyError.KeyError "UnitsSold"))
    ∧ ("InvoiceDate" ∉ fileNoInvoice.columns
      ∧ load_data (some fileNoInvoice)
          = Except.error (PyError.KeyError "InvoiceDate")) :=
  ⟨⟨by decide, by decide, by decide,
      missing_column_raises_keyerror.1 fileNoUnits (by decide) (by decide)
        (by decide)⟩,
    ⟨by decide,
      missing_column_raises_keyerror.2 fileNoInvoice (by decide)⟩⟩

/-- C3: a row whose invoice-date cell fails to parse does not make the load
fail: the load succeeds with every row kept, the bad row carries the NaT
sentinel and the sentinel (missing) period label, its numeric cells are
untouched, and the total-units / total-sales / total-profit /
transaction-count summary scalars are computed over all rows of the table —
the bad row included. -/
theorem bad_date_row_kept_with_sentinel (f : RawFile)
    (hcol : "InvoiceDate" ∈ f.columns) (r : RawRow) (hr : r ∈ f.rows)
    (hbad : parseDate r.InvoiceDate = none) :
    (∃ df : DataFrame, load_data (some f) = Except.ok df
      ∧ df.rows = f.rows.map toRow)
    ∧ (f.rows.map toRow).length = f.rows.length
    ∧ (toRow r).InvoiceDate = none
    ∧ (toRow r).Month_Year = none
    ∧ toRow r ∈ f.rows.map toRow
    ∧ (toRow r).UnitsSold = r.UnitsSold
    ∧ (toRow r).TotalSales = r.TotalSales
    ∧ (toRow r).OperatingProfit = r.OperatingProfit
    ∧ total_units (f.rows.map toRow) = (f.rows.map RawRow.UnitsSold).sum
    ∧ total_sales (f.rows.map toRow) = (f.rows.map RawRow.TotalSales).sum
    ∧ total_profit (f.rows.map toRow) = (f.rows.map RawRow.OperatingProfit).sum
    ∧ sales_count (f.rows.map toRow) = f.rows.length := by
  refine ⟨?_, List.length_map _ _, ?_, ?_, List.mem_map_of_mem toRow hr,
    rfl, rfl, rfl, ?_, ?_, ?_, List.length_map _ _⟩
  · exact ⟨DataFrame.mk
      (if "Month_Year" ∈ f.columns then f.columns
       else f.columns ++ ["Month_Year"]) (f.rows.map toRow),
      by simp [load_data, hcol], rfl⟩
  · simp [toRow, hbad]
  · simp [toRow, hbad]
  · simp only [total_units, List.map_map]; rfl
  · simp only [total_sales, List.map_map]; rfl
  · simp only [total_profit, List.map_map]; rfl

theorem bad_date_row_kept_with_sentinel_witness :
    (∃ df : DataFrame, load_data (some fileBad) = Except.ok df
      ∧ df.rows = fileBad.rows.map toRow)
    ∧ (fileBad.rows.map toRow).length = fileBad.rows.length
    ∧ (toRow rawBad).InvoiceDate = none
    ∧ (toRow rawBad).Month_Year = none
    ∧ toRow rawBad ∈ fileBad.rows.map toRow
    ∧ (toRow rawBad).UnitsSold = rawBad.UnitsSold
    ∧ (toRow rawBad).TotalSales = rawBad.TotalSales
    ∧ (toRow rawBad).OperatingProfit = rawBad.OperatingProfit
    ∧ total_units (fileBad.rows.map toRow)
        = (fileBad.rows.map RawRow.UnitsSold).sum
    ∧ total_sales (fileBad.rows.map toRow)
        = (fileBad.rows.map RawRow.TotalSales).sum
    ∧ total_profit (fileBad.rows.map toRow)
        = (fileBad.rows.map RawRow.OperatingProfit).sum
    ∧ sales_count (fileBad.rows.map toRow) = fileBad.rows.length :=
  bad_date_row_kept_with_sentinel fileBad (by decide) rawBad (by decide)
    (by decide)
